import Mathlib

/-!
# Verification of `log-publisher/gateway-mqtt-publisher.py`

A shallow embedding of the pure core of the gateway MQTT publisher:

* the TTN status normalizer `parse_ttn_stats` (source lines 158-191),
* the local log parser `parse_log_lines` / `get_gateway_stats` (lines 76-130),
* the docker log fetcher `get_docker_logs` (lines 59-70), and
* one iteration of the scheduler loop inside `publish_stats` (lines 231-306).

Python values appearing in JSON documents are modelled by `JVal`; machine
floats do not occur in the claims (all time arithmetic in the claims is at
whole-second granularity), so instants are modelled as integer epoch seconds.
The external `datetime.fromisoformat` library call is modelled as an explicit
parameter `fromiso : String → Option Int` (`none` models the raised
`ValueError`), and `datetime.now(timezone.utc)` as a parameter `now : Int`.
A Python exception escaping a function is modelled by `Except.error`.

The Python string primitives used by the source (`str.replace`, `str.strip`,
`int(str)`, substring membership `in`) are modelled by structurally recursive
functions on `List Char`, so that every definition evaluates by kernel
reduction.
-/

set_option autoImplicit false

deriving instance DecidableEq for Except

namespace GatewayPublisher

/-! ## Python string primitives -/

/-- `pat` begins the second list (character comparison). -/
def startsWithChars : List Char → List Char → Bool
  | [], _ => true
  | _ :: _, [] => false
  | a :: as, b :: bs => a == b && startsWithChars as bs

/-- `pat` occurs as a contiguous run inside the second list (Python `pat in s`). -/
def hasSubChars (pat : List Char) : List Char → Bool
  | [] => startsWithChars pat []
  | c :: rest => startsWithChars pat (c :: rest) || hasSubChars pat rest

/-- Python `needle in hay` on strings. -/
def containsSub (needle hay : String) : Bool :=
  hasSubChars needle.toList hay.toList

/-- Worker for `pyReplace`; `fuel` bounds the recursion (one unit per input
character suffices because every step consumes at least one character). -/
def replaceAux (pat repl : List Char) : Nat → List Char → List Char
  | _, [] => []
  | 0, l => l
  | fuel + 1, c :: rest =>
    if startsWithChars pat (c :: rest) then
      repl ++ replaceAux pat repl fuel (List.drop (pat.length - 1) rest)
    else
      c :: replaceAux pat repl fuel rest

/-- Python `s.replace(pat, repl)` for a non-empty pattern (the source only
replaces the pattern `"Z"`). -/
def pyReplace (s pat repl : String) : String :=
  String.mk (replaceAux pat.toList repl.toList s.toList.length s.toList)

/-- The whitespace characters stripped by Python `str.strip()` (restricted to
the ASCII ones; the claims involve none of the exotic Unicode spaces). -/
def pyIsSpace (c : Char) : Bool :=
  c == ' ' || c == '\t' || c == '\n' || c == '\r' ||
    c == Char.ofNat 11 || c == Char.ofNat 12

/-- Python `s.strip()` on the character list. -/
def pyStripChars (l : List Char) : List Char :=
  ((l.dropWhile pyIsSpace).reverse.dropWhile pyIsSpace).reverse

/-- Value of a non-empty all-digit character list; `none` otherwise. -/
def digitsVal (l : List Char) : Option Nat :=
  if l.isEmpty then none
  else if l.all Char.isDigit then
    some (l.foldl (fun acc c => acc * 10 + (c.toNat - 48)) 0)
  else none

/-- Python `int(str)`: surrounding whitespace is stripped, one optional sign
is accepted, then a non-empty digit string; anything else raises `ValueError`
(modelled as `none`).  (Python's digit-group underscores and non-ASCII digits
are not modelled; no claim involves them.) -/
def pyStrToInt (s : String) : Option Int :=
  match pyStripChars s.toList with
  | '-' :: rest => (digitsVal rest).map (fun n => -(n : Int))
  | '+' :: rest => (digitsVal rest).map (fun n => (n : Int))
  | t => (digitsVal t).map (fun n => (n : Int))

/-! ## JSON values and documents -/

/-- A JSON value as manipulated by the Python code.  The TTN counters are
integers; JSON floats do not occur in any claim and are omitted. -/
inductive JVal where
  | jnull
  | jbool (b : Bool)
  | jint (n : Int)
  | jstr (s : String)
  deriving DecidableEq, Repr

/-- A decoded JSON object (Python `dict`), as an association list. -/
abbrev Doc := List (String × JVal)

/-- Python `d.get(k, default)` on a `dict`. -/
def pyGet (d : Doc) (k : String) (default : JVal) : JVal :=
  match List.find? (fun kv => kv.1 == k) d with
  | some kv => kv.2
  | none => default

/-- Python `int(v)` on a JSON value: succeeds on ints and bools, parses
integer-shaped strings, and raises (`none`) on `None` and on non-numeric
strings. -/
def pyInt : JVal → Option Int
  | JVal.jnull => none
  | JVal.jbool b => some (if b then 1 else 0)
  | JVal.jint n => some n
  | JVal.jstr s => pyStrToInt s

/-- Python truthiness of a JSON value (`if last_up:`). -/
def pyTruthy : JVal → Bool
  | JVal.jnull => false
  | JVal.jbool b => b
  | JVal.jint n => decide (n ≠ 0)
  | JVal.jstr s => decide (s ≠ "")

/-- Python truthiness of the `data` argument of `parse_ttn_stats`
(`if not data:`): `None` and the empty dict are falsy. -/
def pyTruthyData : Option Doc → Bool
  | none => false
  | some d => !(List.isEmpty d)

/-! ## `parse_ttn_stats` (source lines 158-191) -/

/-- The fixed-shape record returned by `parse_ttn_stats`.  The two timestamp
fields hold whatever JSON value the document carried (the Python code copies
`data.get(..., "")` into the result unchanged). -/
structure TTNStats where
  uplink_count : Int
  downlink_count : Int
  last_uplink_received_at : JVal
  last_downlink_received_at : JVal
  connected : Bool
  deriving DecidableEq, Repr

/-- The zero record returned for absent input (source lines 160-167). -/
def zeroTTNStats : TTNStats :=
  { uplink_count := 0
    downlink_count := 0
    last_uplink_received_at := JVal.jstr ""
    last_downlink_received_at := JVal.jstr ""
    connected := false }

/-- The `connected` derivation of `parse_ttn_stats` (source lines 174-183):
```
connected = False
if last_up:
    try:
        t_last = datetime.fromisoformat(last_up.replace("Z", "+00:00"))
        age = (datetime.now(timezone.utc) - t_last).total_seconds()
        connected = age <= max_age_seconds and uplink > 0
    except Exception:
        connected = uplink > 0
```
A truthy non-string `last_up` raises `AttributeError` at `.replace`, which the
bare `except` also catches, landing in the same fallback. -/
def derive_connected (fromiso : String → Option Int) (now : Int) (uplink : Int)
    (last_up : JVal) (max_age_seconds : Int) : Bool :=
  if pyTruthy last_up then
    match last_up with
    | JVal.jstr s =>
      match fromiso (pyReplace s "Z" "+00:00") with
      | some t_last => decide (now - t_last ≤ max_age_seconds) && decide (uplink > 0)
      | none => decide (uplink > 0)
    | _ => decide (uplink > 0)
  else
    false

/-- `parse_ttn_stats(data, max_age_seconds)` (source lines 158-191).  The two
`int(data.get(...))` conversions are not guarded by any `try`, so a
non-convertible field raises to the caller (`Except.error`); the timestamp
parsing is guarded and realized by `derive_connected`.  The source's default
`max_age_seconds=600` is passed explicitly by callers of this embedding. -/
def parse_ttn_stats (fromiso : String → Option Int) (now : Int)
    (data : Option Doc) (max_age_seconds : Int) : Except String TTNStats :=
  if !(pyTruthyData data) then
    Except.ok zeroTTNStats
  else
    let d := data.getD []
    match pyInt (pyGet d "uplink_count" (JVal.jint 0)) with
    | none => Except.error "ValueError: uplink_count"
    | some uplink =>
      match pyInt (pyGet d "downlink_count" (JVal.jint 0)) with
      | none => Except.error "ValueError: downlink_count"
      | some downlink =>
        let last_up := pyGet d "last_uplink_received_at" (JVal.jstr "")
        let last_down := pyGet d "last_downlink_received_at" (JVal.jstr "")
        Except.ok
          { uplink_count := uplink
            downlink_count := downlink
            last_uplink_received_at := last_up
            last_downlink_received_at := last_down
            connected := derive_connected fromiso now uplink last_up max_age_seconds }

example :
    parse_ttn_stats (fun _ => none) 0 none 600 = Except.ok zeroTTNStats := by
  decide

example :
    parse_ttn_stats (fun _ => none) 0
      (some [("uplink_count", JVal.jstr "abc")]) 600 =
    Except.error "ValueError: uplink_count" := by
  decide

example :
    parse_ttn_stats (fun _ => none) 0
      (some [("uplink_count", JVal.jint 3),
             ("last_uplink_received_at", JVal.jstr "bogus")]) 600 =
    Except.ok
      { uplink_count := 3
        downlink_count := 0
        last_uplink_received_at := JVal.jstr "bogus"
        last_downlink_received_at := JVal.jstr ""
        connected := true } := by
  decide

example :
    parse_ttn_stats
      (fun s => if s = "2025-01-01T00:00:00+00:00" then some 1000 else none) 1601
      (some [("uplink_count", JVal.jint 3),
             ("last_uplink_received_at", JVal.jstr "2025-01-01T00:00:00Z")]) 600 =
    Except.ok
      { uplink_count := 3
        downlink_count := 0
        last_uplink_received_at := JVal.jstr "2025-01-01T00:00:00Z"
        last_downlink_received_at := JVal.jstr ""
        connected := false } := by
  decide

/-! ## Local log parsing (source lines 76-130) -/

/-- Python `not line.strip()`: the line is blank (empty or all whitespace). -/
def pyBlank (line : String) : Bool :=
  line.toList.all pyIsSpace

/-- An uplink-event line: `"[S2E:" in line and " RX " in line`
(source lines 86 and 108). -/
def isRxLine (line : String) : Bool :=
  containsSub "[S2E:" line && containsSub " RX " line

/-- A downlink-event line: `"[S2E:" in line and " TX " in line`
(source line 92). -/
def isTxLine (line : String) : Bool :=
  containsSub "[S2E:" line && containsSub " TX " line

/-- The counter pair returned by `parse_log_lines`. -/
structure LogCounts where
  rx : Nat
  tx : Nat
  deriving DecidableEq, Repr

/-- `parse_log_lines(lines)` (source lines 76-97): skip blank lines, then two
independent `if`s increment the RX and TX counters. -/
def parse_log_lines (lines : List String) : LogCounts :=
  lines.foldl
    (fun c line =>
      if pyBlank line then c
      else
        let c1 := if isRxLine line then { c with rx := c.rx + 1 } else c
        if isTxLine line then { c1 with tx := c1.tx + 1 } else c1)
    { rx := 0, tx := 0 }

/-- The record returned by `get_gateway_stats`. -/
structure LocalStats where
  rx_total : Nat
  tx_total : Nat
  connected : Bool
  timestamp : String
  deriving DecidableEq, Repr

/-- Python `lines[-50:]`: the final `n` elements of the list. -/
def takeLast {α : Type} (n : Nat) (l : List α) : List α :=
  l.drop (l.length - n)

/-- `get_gateway_stats` (source lines 100-130) applied to an already-fetched
line window (the `get_docker_logs` call is the I/O boundary); `nowIso` stands
for `datetime.now().isoformat()`.  `recent_lines = lines[-50:] if lines
else []`, and `connected` holds iff some recent line is an uplink-event
line. -/
def get_gateway_stats (lines : List String) (nowIso : String) : LocalStats :=
  let stats := parse_log_lines lines
  let recent_lines := if lines.isEmpty then [] else takeLast 50 lines
  let has_rx_recent := recent_lines.any isRxLine
  { rx_total := stats.rx
    tx_total := stats.tx
    connected := has_rx_recent
    timestamp := nowIso }

/-! ## `get_docker_logs` (source lines 59-70) -/

/-- Modelled from the spec: the container log-retrieval collaborator
(`docker_client.containers.get(name).logs(tail=n)`, outside this repository)
"returns the last N lines of text from a named running process"; the source's
byte-decode and `splitlines` reconstruct exactly those lines, so the
collaborator is modelled directly at line granularity. -/
def containerLogs (procLog : List String) (tail : Nat) : List String :=
  takeLast tail procLog

/-- `get_docker_logs(container_name, tail_lines)` (source lines 59-70).
`outcome` is `none` when any step of the retrieval raises (process not found,
I/O error): the `except` clause prints the error and returns `[]`.  The
function itself never raises. -/
def get_docker_logs (outcome : Option (List String)) (tail_lines : Nat) :
    List String :=
  match outcome with
  | none => []
  | some procLog => containerLogs procLog tail_lines

/-! ## The scheduler loop of `publish_stats` (source lines 226-306)

The loop body is embedded as a state transformer over the two "last fired"
timestamps, instrumented with the list of chains it runs (each event is the
`now` at which it ran, paired with which textual block ran).  The source's
loop body contains two copies of the TTN block and no local-stats block at
all (`local_interval` and `last_local` are assigned but never read, and
`get_gateway_stats` has no caller). -/

/-- `local_interval = 5` (source line 226; declared but never used by the
loop). -/
def local_interval : Int := 5

/-- `ttn_interval = 10` (source line 227). -/
def ttn_interval : Int := 10

/-- The mutable loop state: `last_local = 0.0`, `last_ttn = 0.0`
(source lines 228-229). -/
structure SchedState where
  last_local : Int
  last_ttn : Int
  deriving DecidableEq, Repr

/-- The fresh scheduler state at loop entry. -/
def freshSched : SchedState :=
  { last_local := 0, last_ttn := 0 }

/-- Which fetch→derive→publish chain an iteration ran.  `localChain` is the
local-stats chain the surrounding program documents; the loop body never
emits it because the source's loop contains no local block.  `remote1` and
`remote2` are the first and the duplicated second TTN block. -/
inductive Chain where
  | localChain
  | remote1
  | remote2
  deriving DecidableEq, Repr

/-- One iteration of the `while True` body (source lines 231-306), minus the
`sleep(1)`: `now = time.time()`, then the first TTN block guarded by
`now - last_ttn >= ttn_interval` (resetting `last_ttn = now`), then the
duplicated second TTN block under the same guard re-evaluated against the
updated `last_ttn`. -/
def loop_body (ttnInterval : Int) (now : Int) (s : SchedState) :
    SchedState × List (Int × Chain) :=
  let fire1 := decide (now - s.last_ttn ≥ ttnInterval)
  let s1 := if fire1 then { s with last_ttn := now } else s
  let ev1 : List (Int × Chain) := if fire1 then [(now, Chain.remote1)] else []
  let fire2 := decide (now - s1.last_ttn ≥ ttnInterval)
  let s2 := if fire2 then { s1 with last_ttn := now } else s1
  let ev2 : List (Int × Chain) := if fire2 then [(now, Chain.remote2)] else []
  (s2, ev1 ++ ev2)

/-- Run the loop over a list of heartbeat instants, accumulating the fired
chains. -/
def schedRun (ttnInterval : Int) (ticks : List Int) (s : SchedState) :
    SchedState × List (Int × Chain) :=
  ticks.foldl
    (fun acc now =>
      let step := loop_body ttnInterval now acc.1
      (step.1, acc.2 ++ step.2))
    (s, [])

example :
    (schedRun ttn_interval [1, 2, 3, 4, 5, 6, 7, 8, 9, 10, 11] freshSched).2 =
    [(10, Chain.remote1)] := by
  decide

/-! ## Sample inputs used by concrete claims -/

/-- An uplink-event log line of the Basic Station log format. -/
def rxSample : String := "[S2E:0] frame RX ok"

/-- A log line that is neither an uplink nor a downlink event. -/
def fillerLine : String := "ordinary log line"

/-- Sixty log lines whose uplink-event lines are exactly lines 1-5. -/
def sample60 : List String :=
  List.replicate 5 rxSample ++ List.replicate 55 fillerLine

/-- A TTN document with `uplink_count = 0` and a fresh uplink timestamp. -/
def freshZeroDoc : Doc :=
  [("uplink_count", JVal.jint 0),
   ("last_uplink_received_at", JVal.jstr "2099-01-01T00:00:00Z")]

/-- The record `parse_ttn_stats` produces for `freshZeroDoc` (with a parser
that resolves the timestamp to instant `0` and `now = 0`). -/
def freshZeroRec : TTNStats :=
  { uplink_count := 0
    downlink_count := 0
    last_uplink_received_at := JVal.jstr "2099-01-01T00:00:00Z"
    last_downlink_received_at := JVal.jstr ""
    connected := false }

/-- An ISO parser stub resolving one fixed RFC3339 string to instant 10. -/
def isoStale : String → Option Int :=
  fun s => if s = "2025-01-01T00:00:10+00:00" then some 10 else none

/-- A TTN document with positive uplink count and a parseable timestamp. -/
def staleDoc : Doc :=
  [("uplink_count", JVal.jint 7),
   ("last_uplink_received_at", JVal.jstr "2025-01-01T00:00:10Z")]

/-- A TTN document with `uplink_count = 3` and an unparseable timestamp. -/
def malformedDoc : Doc :=
  [("uplink_count", JVal.jint 3),
   ("last_uplink_received_at", JVal.jstr "not-a-timestamp")]

/-- A log line that is simultaneously an uplink- and a downlink-event line. -/
def dualLine : String := "[S2E:1] got RX then TX end"

/-! ## Helper lemmas -/

/-- `derive_connected` can only yield `true` when the extracted uplink count
is strictly positive: every branch is either `false` or conjoined with
`uplink > 0`. -/
theorem derive_connected_true_uplink_pos
    (f : String → Option Int) (now u m : Int) (l : JVal)
    (h : derive_connected f now u l m = true) : 0 < u := by
  unfold derive_connected at h
  split at h
  · split at h
    · split at h
      · simp only [Bool.and_eq_true, decide_eq_true_eq] at h
        exact h.2
      · simpa using h
    · simpa using h
  · simp at h

/-- Shape of the successful result of `parse_ttn_stats` on a non-empty
document whose two counter fields convert. -/
theorem parse_ttn_stats_eq_ok
    (f : String → Option Int) (now ma : Int) (doc : Doc) (u d : Int)
    (hne : doc ≠ [])
    (hu : pyInt (pyGet doc "uplink_count" (JVal.jint 0)) = some u)
    (hd : pyInt (pyGet doc "downlink_count" (JVal.jint 0)) = some d) :
    parse_ttn_stats f now (some doc) ma =
      Except.ok
        { uplink_count := u
          downlink_count := d
          last_uplink_received_at := pyGet doc "last_uplink_received_at" (JVal.jstr "")
          last_downlink_received_at := pyGet doc "last_downlink_received_at" (JVal.jstr "")
          connected := derive_connected f now u
            (pyGet doc "last_uplink_received_at" (JVal.jstr "")) ma } := by
  cases doc with
  | nil => exact absurd rfl hne
  | cons kv rest =>
    simp [parse_ttn_stats, pyTruthyData, hu, hd]

/-! ## Claim theorems -/

/-- C7: for every `fromiso`, `now` and `maxAgeSeconds`, applying
`parse_ttn_stats` to the absent input (`None`) yields exactly the fixed zero
record `{uplink_count: 0, downlink_count: 0, last_uplink_received_at: "",
last_downlink_received_at: "", connected: false}`; the result does not depend
on `maxAgeSeconds`. -/
theorem parse_ttn_stats_absent_yields_zero_record
    (fromiso : String → Option Int) (now max_age_seconds : Int) :
    parse_ttn_stats fromiso now none max_age_seconds =
      Except.ok zeroTTNStats := rfl

/-- C3: for every input to `parse_ttn_stats`, whenever a record is produced
its `connected` flag is `true` only if the extracted uplink count is strictly
positive; in particular a record with `uplink_count = 0` always carries
`connected = false`, regardless of timestamp freshness. -/
theorem parse_ttn_stats_connected_requires_uplink
    (fromiso : String → Option Int) (now max_age_seconds : Int)
    (data : Option Doc) (r : TTNStats)
    (h : parse_ttn_stats fromiso now data max_age_seconds = Except.ok r) :
    (r.connected = true → 0 < r.uplink_count) ∧
    (r.uplink_count = 0 → r.connected = false) := by
  have key : r.connected = true → 0 < r.uplink_count := by
    intro hc
    match data with
    | none =>
      rw [parse_ttn_stats_absent_yields_zero_record, Except.ok.injEq] at h
      rw [← h] at hc
      simp [zeroTTNStats] at hc
    | some [] =>
      have hz : parse_ttn_stats fromiso now (some []) max_age_seconds =
          Except.ok zeroTTNStats := rfl
      rw [hz, Except.ok.injEq] at h
      rw [← h] at hc
      simp [zeroTTNStats] at hc
    | some (kv :: rest) =>
      rcases hu : pyInt (pyGet (kv :: rest) "uplink_count" (JVal.jint 0)) with _ | u
      · have he : parse_ttn_stats fromiso now (some (kv :: rest)) max_age_seconds =
            Except.error "ValueError: uplink_count" := by
          simp [parse_ttn_stats, pyTruthyData, hu]
        rw [he] at h
        cases h
      · rcases hd : pyInt (pyGet (kv :: rest) "downlink_count" (JVal.jint 0)) with _ | d
        · have he : parse_ttn_stats fromiso now (some (kv :: rest)) max_age_seconds =
              Except.error "ValueError: downlink_count" := by
            simp [parse_ttn_stats, pyTruthyData, hu, hd]
          rw [he] at h
          cases h
        · rw [parse_ttn_stats_eq_ok fromiso now max_age_seconds (kv :: rest) u d
            (by simp) hu hd, Except.ok.injEq] at h
          rw [← h] at hc ⊢
          exact derive_connected_true_uplink_pos _ _ _ _ _ hc
  refine ⟨key, fun h0 => ?_⟩
  cases hcon : r.connected
  · rfl
  · have := key hcon
    omega

/-- C4: on a document whose `last_uplink_received_at` parses (via `fromiso`)
to the instant `t` and whose uplink count is positive, `parse_ttn_stats`
yields `connected = (now − t ≤ maxAgeSeconds)`: with `maxAgeSeconds = 600`,
age 601 gives `connected = false`, age 599 gives `connected = true`, and the
boundary age of exactly `maxAgeSeconds` counts as connected. -/
theorem parse_ttn_stats_staleness_boundary
    (fromiso : String → Option Int) (now t max_age_seconds u d : Int)
    (s : String) (doc : Doc)
    (hu : pyInt (pyGet doc "uplink_count" (JVal.jint 0)) = some u)
    (hd : pyInt (pyGet doc "downlink_count" (JVal.jint 0)) = some d)
    (hl : pyGet doc "last_uplink_received_at" (JVal.jstr "") = JVal.jstr s)
    (hs : s ≠ "")
    (hp : fromiso (pyReplace s "Z" "+00:00") = some t)
    (hup : 0 < u) :
    ∃ r, parse_ttn_stats fromiso now (some doc) max_age_seconds = Except.ok r ∧
      r.connected = decide (now - t ≤ max_age_seconds) ∧
      (max_age_seconds = 600 → now - t = 601 → r.connected = false) ∧
      (max_age_seconds = 600 → now - t = 599 → r.connected = true) ∧
      (now - t = max_age_seconds → r.connected = true) := by
  have hne : doc ≠ [] := by
    intro hnil
    subst hnil
    rw [show pyGet [] "last_uplink_received_at" (JVal.jstr "") = JVal.jstr ""
      from rfl] at hl
    injection hl with hval
    exact hs hval.symm
  have hconn :
      derive_connected fromiso now u
        (pyGet doc "last_uplink_received_at" (JVal.jstr "")) max_age_seconds =
      decide (now - t ≤ max_age_seconds) := by
    rw [hl]
    simp [derive_connected, pyTruthy, hs, hp, hup]
  refine ⟨_, parse_ttn_stats_eq_ok fromiso now max_age_seconds doc u d hne hu hd,
    ?_, ?_, ?_, ?_⟩
  · simpa using hconn
  · intro h600 h601
    show derive_connected fromiso now u
      (pyGet doc "last_uplink_received_at" (JVal.jstr "")) max_age_seconds = false
    rw [hconn, h601, h600]
    decide
  · intro h600 h599
    show derive_connected fromiso now u
      (pyGet doc "last_uplink_received_at" (JVal.jstr "")) max_age_seconds = true
    rw [hconn, h599, h600]
    decide
  · intro hb
    show derive_connected fromiso now u
      (pyGet doc "last_uplink_received_at" (JVal.jstr "")) max_age_seconds = true
    rw [hconn, hb]
    simp

/-- C6: when `last_uplink_received_at` is a non-empty string whose parse
fails, `parse_ttn_stats` falls back to `connected = (uplinkCount > 0)` (so
uplink count 3 yields `connected = true`); and when `last_uplink_received_at`
is the empty string, `connected = false` regardless of the counts. -/
theorem parse_ttn_stats_malformed_timestamp_fallback
    (fromiso : String → Option Int) (now max_age_seconds u d : Int)
    (doc : Doc) (s : String)
    (hu : pyInt (pyGet doc "uplink_count" (JVal.jint 0)) = some u)
    (hd : pyInt (pyGet doc "downlink_count" (JVal.jint 0)) = some d) :
    ((pyGet doc "last_uplink_received_at" (JVal.jstr "") = JVal.jstr s) →
      s ≠ "" → fromiso (pyReplace s "Z" "+00:00") = none →
      ∃ r, parse_ttn_stats fromiso now (some doc) max_age_seconds = Except.ok r ∧
        r.connected = decide (0 < u)) ∧
    ((pyGet doc "last_uplink_received_at" (JVal.jstr "") = JVal.jstr "") →
      ∃ r, parse_ttn_stats fromiso now (some doc) max_age_seconds = Except.ok r ∧
        r.connected = false) := by
  constructor
  · intro hl hs hp
    have hne : doc ≠ [] := by
      intro hnil
      subst hnil
      rw [show pyGet [] "last_uplink_received_at" (JVal.jstr "") = JVal.jstr ""
        from rfl] at hl
      injection hl with hval
      exact hs hval.symm
    refine ⟨_, parse_ttn_stats_eq_ok fromiso now max_age_seconds doc u d hne hu hd, ?_⟩
    show derive_connected fromiso now u
      (pyGet doc "last_uplink_received_at" (JVal.jstr "")) max_age_seconds =
      decide (0 < u)
    rw [hl]
    simp [derive_connected, pyTruthy, hs, hp]
  · intro hl
    by_cases hne : doc = []
    · subst hne
      exact ⟨zeroTTNStats, rfl, rfl⟩
    · refine ⟨_, parse_ttn_stats_eq_ok fromiso now max_age_seconds doc u d hne hu hd, ?_⟩
      show derive_connected fromiso now u
        (pyGet doc "last_uplink_received_at" (JVal.jstr "")) max_age_seconds = false
      rw [hl]
      simp [derive_connected, pyTruthy]

/-- C2 counterexample: `parse_ttn_stats` on a document with a non-numeric
`uplink_count` raises to its caller (the `int(...)` conversion is outside any
`try`), contradicting the claim that malformed input always degrades to a
well-formed record. -/
theorem parse_ttn_stats_raises_on_non_numeric :
    parse_ttn_stats (fun _ => none) 0
      (some [("uplink_count", JVal.jstr "abc")]) 600 =
    Except.error "ValueError: uplink_count" := by
  decide

/-- C2 (amended): the uplink and downlink counts are extracted as integers
with `0` substituted when the field is missing, and the function returns a
well-formed record without raising whenever both count fields are absent or
integer-convertible; a non-numeric count field instead raises to the caller. -/
theorem parse_ttn_stats_ok_on_convertible_counts
    (fromiso : String → Option Int) (now max_age_seconds : Int)
    (data : Option Doc) (u d : Int)
    (hu : pyInt (pyGet (data.getD []) "uplink_count" (JVal.jint 0)) = some u)
    (hd : pyInt (pyGet (data.getD []) "downlink_count" (JVal.jint 0)) = some d) :
    ∃ r, parse_ttn_stats fromiso now data max_age_seconds = Except.ok r ∧
      r.uplink_count = u ∧ r.downlink_count = d := by
  match data with
  | none =>
    have hu0 : u = 0 := by simpa [pyGet, pyInt] using hu.symm
    have hd0 : d = 0 := by simpa [pyGet, pyInt] using hd.symm
    exact ⟨zeroTTNStats, rfl, by simp [zeroTTNStats, hu0], by simp [zeroTTNStats, hd0]⟩
  | some [] =>
    have hu0 : u = 0 := by simpa [pyGet, pyInt] using hu.symm
    have hd0 : d = 0 := by simpa [pyGet, pyInt] using hd.symm
    exact ⟨zeroTTNStats, rfl, by simp [zeroTTNStats, hu0], by simp [zeroTTNStats, hd0]⟩
  | some (kv :: rest) =>
    exact ⟨_, parse_ttn_stats_eq_ok fromiso now max_age_seconds (kv :: rest) u d
      (by simp) hu hd, rfl, rfl⟩

/-- C5: `get_gateway_stats` counts uplink/downlink event lines over the whole
window while deriving `connected` from only the final 50 lines (all lines when
fewer than 50 exist): on the 60-line sample whose uplink-event lines are
exactly lines 1-5 it yields `rx_total = 5` and `connected = false`, and on
empty input it yields `rx_total = 0`, `tx_total = 0`, `connected = false`. -/
theorem get_gateway_stats_window_policy :
    (∀ (lines : List String) (t : String),
      (get_gateway_stats lines t).rx_total = (parse_log_lines lines).rx ∧
      (get_gateway_stats lines t).tx_total = (parse_log_lines lines).tx) ∧
    (∀ (lines : List String) (t : String),
      (get_gateway_stats lines t).connected = (takeLast 50 lines).any isRxLine) ∧
    (∀ (lines : List String) (t : String), lines.length ≤ 50 →
      (get_gateway_stats lines t).connected = lines.any isRxLine) ∧
    (∀ t : String, get_gateway_stats sample60 t =
      { rx_total := 5, tx_total := 0, connected := false, timestamp := t }) ∧
    (∀ t : String, get_gateway_stats [] t =
      { rx_total := 0, tx_total := 0, connected := false, timestamp := t }) := by
  have hwin : ∀ (lines : List String) (t : String),
      (get_gateway_stats lines t).connected = (takeLast 50 lines).any isRxLine := by
    intro lines t
    cases lines with
    | nil => rfl
    | cons a l => rfl
  refine ⟨fun lines t => ⟨rfl, rfl⟩, hwin, ?_, fun t => rfl, fun t => rfl⟩
  intro lines t h50
  rw [hwin]
  have h0 : lines.length - 50 = 0 := Nat.sub_eq_zero_of_le h50
  simp [takeLast, h0]

/-- C5 witness: the recency conjunct instantiated on a one-line window. -/
theorem get_gateway_stats_window_policy_witness :
    [rxSample].length ≤ 50 ∧
    (get_gateway_stats [rxSample] "now").connected = [rxSample].any isRxLine :=
  ⟨by decide,
   get_gateway_stats_window_policy.2.2.1 [rxSample] "now" (by decide)⟩

/-- C10: the uplink and downlink classifications of `parse_log_lines` are not
mutually exclusive: a non-blank line containing the marker `"[S2E:"` together
with both `" RX "` and `" TX "` increments both counters. -/
theorem parse_log_lines_rx_tx_not_exclusive
    (line : String)
    (hb : pyBlank line = false)
    (hm : containsSub "[S2E:" line = true)
    (hr : containsSub " RX " line = true)
    (ht : containsSub " TX " line = true) :
    parse_log_lines [line] = { rx := 1, tx := 1 } := by
  simp [parse_log_lines, isRxLine, isTxLine, hb, hm, hr, ht]

/-- C10 witness: a concrete line carrying all three markers counts once in
each counter. -/
theorem parse_log_lines_rx_tx_not_exclusive_witness :
    parse_log_lines [dualLine] = { rx := 1, tx := 1 } :=
  parse_log_lines_rx_tx_not_exclusive dualLine (by decide) (by decide)
    (by decide) (by decide)

/-- C8: `get_docker_logs` returns at most `tail_lines` lines, and on any
retrieval failure (modelled by the absent outcome: process not found, I/O
error) it returns the empty sequence; being a total function of the retrieval
outcome, it never raises to its caller. -/
theorem get_docker_logs_bounded_and_total
    (outcome : Option (List String)) (tail_lines : Nat) :
    (get_docker_logs outcome tail_lines).length ≤ tail_lines ∧
    (outcome = none → get_docker_logs outcome tail_lines = []) := by
  constructor
  · cases outcome with
    | none => simp [get_docker_logs]
    | some procLog =>
      simp only [get_docker_logs, containerLogs, takeLast, List.length_drop]
      omega
  · rintro rfl
    rfl

/-- C8 witness: failure yields `[]`, and a three-line log tailed to 2 is
bounded by 2. -/
theorem get_docker_logs_bounded_and_total_witness :
    get_docker_logs none 100 = [] ∧
    (get_docker_logs (some ["a", "b", "c"]) 2).length ≤ 2 :=
  ⟨(get_docker_logs_bounded_and_total none 100).2 rfl,
   (get_docker_logs_bounded_and_total (some ["a", "b", "c"]) 2).1⟩

/-- C9: within a single loop iteration the remote chain executes at most
once: after the first remote block resets `last_ttn` to the iteration's `now`,
the duplicated second block re-checks the same elapsed-time guard against a
zero elapsed time, so for any positive remote interval it never runs (every
event the iteration emits comes from the first block). -/
theorem loop_body_remote_at_most_once
    (ttnInterval now : Int) (s : SchedState) (hpos : 0 < ttnInterval) :
    (loop_body ttnInterval now s).2.length ≤ 1 ∧
    ∀ p ∈ (loop_body ttnInterval now s).2, p.2 = Chain.remote1 := by
  unfold loop_body
  by_cases h1 : now - s.last_ttn ≥ ttnInterval
  · have h2 : ¬ (now - now ≥ ttnInterval) := by omega
    simp [h1, h2]
    omega
  · simp [h1]

/-- C9 witness: instantiated at interval 10 on the fresh state. -/
theorem loop_body_remote_at_most_once_witness :
    (loop_body 10 7 freshSched).2.length ≤ 1 :=
  (loop_body_remote_at_most_once 10 7 freshSched (by decide)).1

/-- C1 (evaluation of the code at the claim's scenario): running the embedded
loop body over 11 heartbeat ticks (`now = 1..11` seconds) from the fresh
scheduler state with the source's intervals (`local_interval = 5`,
`ttn_interval = 10`), the remote chain fires exactly once, at tick 10, but no
local chain ever fires and `last_local` is never touched — the loop body
contains no local fetch→derive→publish block, so the local chain cannot fire
at ticks 5 and 10 as claimed. -/
theorem scheduler_eleven_ticks_no_local_chain :
    local_interval = 5 ∧ ttn_interval = 10 ∧
    (schedRun ttn_interval [1, 2, 3, 4, 5, 6, 7, 8, 9, 10, 11] freshSched).2 =
      [(10, Chain.remote1)] ∧
    ((schedRun ttn_interval [1, 2, 3, 4, 5, 6, 7, 8, 9, 10, 11] freshSched).2.filter
      (fun e => e.2 == Chain.localChain)) = [] ∧
    (schedRun ttn_interval [1, 2, 3, 4, 5, 6, 7, 8, 9, 10, 11] freshSched).1.last_local =
      freshSched.last_local := by
  decide

/-- C3 witness: instantiated on a zero-uplink document with a fresh,
successfully parsed timestamp. -/
theorem parse_ttn_stats_connected_requires_uplink_witness :
    (freshZeroRec.connected = true → 0 < freshZeroRec.uplink_count) ∧
    (freshZeroRec.uplink_count = 0 → freshZeroRec.connected = false) :=
  parse_ttn_stats_connected_requires_uplink (fun _ => some 0) 0 600
    (some freshZeroDoc) freshZeroRec (by decide)

/-- C4 witness: instantiated at age 601 with `maxAgeSeconds = 600`. -/
theorem parse_ttn_stats_staleness_boundary_witness :
    ∃ r, parse_ttn_stats isoStale 611 (some staleDoc) 600 = Except.ok r ∧
      r.connected = decide ((611 : Int) - 10 ≤ 600) ∧
      ((600 : Int) = 600 → (611 : Int) - 10 = 601 → r.connected = false) ∧
      ((600 : Int) = 600 → (611 : Int) - 10 = 599 → r.connected = true) ∧
      ((611 : Int) - 10 = 600 → r.connected = true) :=
  parse_ttn_stats_staleness_boundary isoStale 611 10 600 7 0
    "2025-01-01T00:00:10Z" staleDoc (by decide) (by decide) (by decide)
    (by decide) (by decide) (by decide)

/-- C6 witness: an unparseable timestamp with `uplink_count = 3` falls back
to `connected = (0 < 3) = true`. -/
theorem parse_ttn_stats_malformed_timestamp_fallback_witness :
    ∃ r, parse_ttn_stats (fun _ => none) 0 (some malformedDoc) 600 =
        Except.ok r ∧
      r.connected = decide ((0 : Int) < 3) :=
  (parse_ttn_stats_malformed_timestamp_fallback (fun _ => none) 0 600 3 0
    malformedDoc "not-a-timestamp" (by decide) (by decide)).1
    (by decide) (by decide) rfl

/-- C2 witness (amended claim): a string-numeric `uplink_count` converts and
the function returns a record without raising. -/
theorem parse_ttn_stats_ok_on_convertible_counts_witness :
    ∃ r, parse_ttn_stats (fun _ => none) 0
        (some [("uplink_count", JVal.jstr "42")]) 600 = Except.ok r ∧
      r.uplink_count = 42 ∧ r.downlink_count = 0 :=
  parse_ttn_stats_ok_on_convertible_counts (fun _ => none) 0 600
    (some [("uplink_count", JVal.jstr "42")]) 42 0 (by decide) (by decide)

end GatewayPublisher
